import Mathlib

/-!
Verification development for the esios-ree indicator service.

The embedding follows the two Python sources:

* `src/esios_ree/esios_ree.py` — the `Indicators` pydantic model, the
  `EsiosReeDataFetcher` class and the `EsiosReeVisualizer` class;
* `src/main.py` — the FastAPI route `get_indicators`.

Machine-level conventions of the embedding:

* Python `datetime.date` values are the `Date` structure below, ordered
  lexicographically on (year, month, day), exactly as Python orders dates.
* pydantic v1 validation of the `Indicators` model is embedded as a fold
  over a list of field names (`pydanticValidate`): each field validator
  receives the dict of previously validated fields (`Values`); a raised
  `ValueError` becomes an entry of the structured error list, and the
  field is then not added to `Values`.  The declaration order of the
  model is `[id, start_date, end_date]`.
* The outbound HTTP world is a stub function from (url, headers) to a
  response; every effect of interest (a network request, an invocation
  of the Visualizer) is recorded in an explicit event trace.
* Exceptions escaping the route handler (which the web framework turns
  into a 500 response) are modelled by the `ServiceResponse.unhandled`
  constructor, carrying the Python exception type name.
-/

/-- Calendar date, mirroring Python `datetime.date` (year, month, day). -/
structure Date where
  year : Nat
  month : Nat
  day : Nat
deriving DecidableEq, Repr

/-- Python date comparison `a < b`: lexicographic on (year, month, day). -/
def Date.lt (a b : Date) : Bool :=
  decide (a.year < b.year ∨ (a.year = b.year ∧
    (a.month < b.month ∨ (a.month = b.month ∧ a.day < b.day))))

/-- Python date comparison `a <= b`: lexicographic on (year, month, day). -/
def Date.le (a b : Date) : Bool :=
  decide (a.year < b.year ∨ (a.year = b.year ∧
    (a.month < b.month ∨ (a.month = b.month ∧ a.day ≤ b.day))))

/-- Gregorian leap-year rule, as used by Python `datetime`. -/
def isLeapYear (y : Nat) : Bool :=
  y % 4 = 0 && (y % 100 ≠ 0 || y % 400 = 0)

/-- Number of days of a month, as used by Python `datetime`. -/
def daysInMonth (y m : Nat) : Nat :=
  if m = 2 then (if isLeapYear y then 29 else 28)
  else if m = 4 ∨ m = 6 ∨ m = 9 ∨ m = 11 then 30
  else 31

/-- Validity of a calendar date: the constraints enforced by the
`datetime.date` constructor (year 1..9999, month 1..12, day in range). -/
def isValidDate (d : Date) : Bool :=
  1 ≤ d.year && d.year ≤ 9999 &&
  1 ≤ d.month && d.month ≤ 12 &&
  1 ≤ d.day && d.day ≤ daysInMonth d.year d.month

/-- Decimal rendering of a natural number, zero-padded to width `w`. -/
def padZeros (w : Nat) (n : Nat) : String :=
  let s := toString n
  String.mk (List.replicate (w - s.length) '0') ++ s

/-- Python `str(date)`: ISO format YYYY-MM-DD. -/
def Date.toIso (d : Date) : String :=
  padZeros 4 d.year ++ "-" ++ padZeros 2 d.month ++ "-" ++ padZeros 2 d.day

/-- Field names of the `Indicators` pydantic model. -/
inductive FieldName where
  | id
  | start_date
  | end_date
deriving DecidableEq, Repr, BEq

/-- One entry of a pydantic `ValidationError.errors()` list: the failing
field and the message of the raised `ValueError`. -/
structure FieldError where
  loc : FieldName
  msg : String
deriving DecidableEq, Repr

/-- Raw input to the `Indicators` model (already parsed by FastAPI into
an integer and two dates). -/
structure IndicatorsInput where
  id : Int
  start_date : Date
  end_date : Date
deriving DecidableEq, Repr

/-- The validated `Indicators` model of `esios_ree.py` lines 11-38. -/
structure Indicators where
  id : Int
  start_date : Date
  end_date : Date
deriving DecidableEq, Repr

/-- The pydantic `values` dict passed to a field validator: the fields
validated so far.  A field that failed its validator is absent. -/
structure Values where
  id : Option Int
  start_date : Option Date
  end_date : Option Date
deriving DecidableEq, Repr

/-- Validator `start_date_must_be_before_end_date` (esios_ree.py 28-32):
raise ValueError when `end_date` is already validated and `v >= end_date`. -/
def start_date_must_be_before_end_date (v : Date) (values : Values) :
    Except String Date :=
  match values.end_date with
  | some ed => if Date.le ed v then
      Except.error "start_date must be before end_date"
    else Except.ok v
  | none => Except.ok v

/-- Validator `end_date_must_be_after_start_date` (esios_ree.py 34-38):
raise ValueError when `start_date` is already validated and `v <= start_date`. -/
def end_date_must_be_after_start_date (v : Date) (values : Values) :
    Except String Date :=
  match values.start_date with
  | some sd => if Date.le v sd then
      Except.error "end_date must be after start_date"
    else Except.ok v
  | none => Except.ok v

/-- Validation of one field under pydantic v1 semantics: run the field
validator on the raw value with the previously validated `values`; on
success add the returned value to `values`, on a raised `ValueError`
append a structured error and leave the field out of `values`.
The `id` field carries no custom validator (any Python int passes). -/
def validateStep (inp : IndicatorsInput) (st : Values × List FieldError)
    (f : FieldName) : Values × List FieldError :=
  match f with
  | FieldName.id => ({ st.1 with id := some inp.id }, st.2)
  | FieldName.start_date =>
    match start_date_must_be_before_end_date inp.start_date st.1 with
    | Except.ok v => ({ st.1 with start_date := some v }, st.2)
    | Except.error m => (st.1, st.2 ++ [⟨FieldName.start_date, m⟩])
  | FieldName.end_date =>
    match end_date_must_be_after_start_date inp.end_date st.1 with
    | Except.ok v => ({ st.1 with end_date := some v }, st.2)
    | Except.error m => (st.1, st.2 ++ [⟨FieldName.end_date, m⟩])

/-- pydantic v1 construction of `Indicators(id=..., start_date=...,
end_date=...)`: validate the fields in the given evaluation order,
collecting errors; success produces the model object, any error raises
`ValidationError` carrying the structured error list. -/
def pydanticValidate (order : List FieldName) (inp : IndicatorsInput) :
    Except (List FieldError) Indicators :=
  let res := order.foldl (validateStep inp) (⟨none, none, none⟩, [])
  match res.2, res.1.id, res.1.start_date, res.1.end_date with
  | [], some i, some sd, some ed => Except.ok ⟨i, sd, ed⟩
  | errs, _, _, _ => Except.error errs

/-- The declaration order of the model fields in `esios_ree.py`:
`id`, then `start_date`, then `end_date`. -/
def declaredOrder : List FieldName :=
  [FieldName.id, FieldName.start_date, FieldName.end_date]

/-- The evaluation order with the two date fields swapped, used to check
that the ordering rule does not depend on which date field is validated
first. -/
def swappedOrder : List FieldName :=
  [FieldName.id, FieldName.end_date, FieldName.start_date]

/-- The structured error list of a failed validation ([] on success). -/
def validationErrors : Except (List FieldError) Indicators → List FieldError
  | Except.error errs => errs
  | Except.ok _ => []

lemma date_le_false_of_lt {s e : Date} (h : Date.lt s e = true) :
    Date.le e s = false := by
  simp only [Date.lt, decide_eq_true_eq] at h
  simp only [Date.le, decide_eq_false_iff_not]
  omega

lemma validate_decl (inp : IndicatorsInput) :
    pydanticValidate declaredOrder inp =
      if Date.le inp.end_date inp.start_date then
        Except.error [⟨FieldName.end_date, "end_date must be after start_date"⟩]
      else Except.ok ⟨inp.id, inp.start_date, inp.end_date⟩ := by
  by_cases h : Date.le inp.end_date inp.start_date = true
  · simp [pydanticValidate, declaredOrder, validateStep,
      start_date_must_be_before_end_date, end_date_must_be_after_start_date, h]
  · simp only [Bool.not_eq_true] at h
    simp [pydanticValidate, declaredOrder, validateStep,
      start_date_must_be_before_end_date, end_date_must_be_after_start_date, h]

lemma validate_swap (inp : IndicatorsInput) :
    pydanticValidate swappedOrder inp =
      if Date.le inp.end_date inp.start_date then
        Except.error [⟨FieldName.start_date, "start_date must be before end_date"⟩]
      else Except.ok ⟨inp.id, inp.start_date, inp.end_date⟩ := by
  by_cases h : Date.le inp.end_date inp.start_date = true
  · simp [pydanticValidate, swappedOrder, validateStep,
      start_date_must_be_before_end_date, end_date_must_be_after_start_date, h]
  · simp only [Bool.not_eq_true] at h
    simp [pydanticValidate, swappedOrder, validateStep,
      start_date_must_be_before_end_date, end_date_must_be_after_start_date, h]

/-- Parsed JSON document (the result of `result.json()`). -/
inductive Json where
  | null
  | bool (b : Bool)
  | num (q : Rat)
  | str (s : String)
  | arr (xs : List Json)
  | obj (fields : List (String × Json))

/-- Upstream HTTP response as seen through the `requests` library:
`ok` (status indicates success), `reason` (the HTTP reason phrase) and
the parsed JSON body. -/
structure HttpResponse where
  ok : Bool
  reason : String
  body : Json

/-- The outbound HTTP world: a stub mapping (url, headers) to a
response.  Header values are optional strings because Python would put
`None` in the dict for a missing api key. -/
def HttpStub : Type :=
  String → List (String × Option String) → HttpResponse

/-- Observable effects of a request: one outbound network call (with
its url and headers), or one invocation of the Visualizer. -/
inductive Event where
  | netCall (url : String) (headers : List (String × Option String))
  | vizCall
deriving DecidableEq, Repr

/-- Whether an event is an invocation of the Visualizer. -/
def Event.isViz : Event → Bool
  | Event.vizCall => true
  | _ => false

/-- Instance state of `EsiosReeDataFetcher`: the private fields
`__api_key`, `__data`, `__main_url` and `__str` set in `__init__`. -/
structure FetcherState where
  api_key : Option String
  data : Option Json
  main_url : String
  str : String

/-- The fixed base url assigned in `__init__` (esios_ree.py line 55). -/
def mainUrl : String := "https://api.esios.ree.es/"

/-- The message of the TypeError raised by `__check_api_key`
(esios_ree.py lines 61-62). -/
def apiKeyErrorMsg : String :=
  "Provide an API key. You can request your personal token at consultasios@ree.es"

/-- Method `__check_api_key` (esios_ree.py 59-62): raise TypeError when
the api key is None, otherwise do nothing.  The raised message is
returned as `some`. -/
def check_api_key (st : FetcherState) : Option String :=
  match st.api_key with
  | none => some apiKeyErrorMsg
  | some _ => none

/-- Constructor `EsiosReeDataFetcher.__init__` (esios_ree.py 52-57):
set the private fields, then run `__check_api_key`; a raised TypeError
aborts construction.  No HTTP stub is consumed: construction performs
no network call. -/
def esiosInit (api_key : Option String) : Except String FetcherState :=
  let st : FetcherState :=
    { api_key := api_key, data := none, main_url := mainUrl, str := "" }
  match check_api_key st with
  | some err => Except.error err
  | none => Except.ok st

/-- Property `data` (esios_ree.py 64-69). -/
def FetcherState.dataProp (st : FetcherState) : Option Json :=
  st.data

/-- Method `meta_info` (esios_ree.py 109-111): return `self.__str`. -/
def meta_info (st : FetcherState) : String :=
  st.str

/-- The headers dict built in `__fetch_data` (esios_ree.py 73-74). -/
def fetchHeaders (api_key : Option String) : List (String × Option String) :=
  [("x-api-key", api_key),
   ("Accept", some "application/json; application/vnd.esios-api-v1+json"),
   ("Content-type", some "application/json")]

/-- Method `__fetch_data` (esios_ree.py 71-80): one `requests.get` with
the headers; on non-success return (False, reason) leaving `__data`
untouched; on success store the parsed body in `__data` and return
(True, None).  The Python pair (success, message) is rendered as
`Option String`: `some reason` for failure, `none` for success. -/
def fetch_data (http : HttpStub) (st : FetcherState) (url : String) :
    FetcherState × Option String × List Event :=
  let headers := fetchHeaders st.api_key
  let result := http url headers
  if result.ok then
    ({ st with data := some result.body }, none, [Event.netCall url headers])
  else
    (st, some result.reason, [Event.netCall url headers])

/-- The url built by f-string interpolation in `get_data_of_indicators`
(esios_ree.py line 97); Python str() of an int and of a date give the
decimal rendering and the ISO format. -/
def indicatorsUrl (main_url : String) (id : Int) (s e : Date) : String :=
  main_url ++ "indicators/" ++ toString id ++
    "?start_date=" ++ Date.toIso s ++ "&end_date=" ++ Date.toIso e

/-- The summary f-string assigned to `self.__str` on a successful fetch
(esios_ree.py line 101). -/
def summaryString (id : Int) (s e : Date) : String :=
  "Demanda Real " ++ toString id ++ ". De " ++ Date.toIso s ++ " a " ++ Date.toIso e

/-- The discriminated value of the Python pair returned by
`get_data_of_indicators`: (True, self.data), (False, reason) from the
HTTP layer, or (False, e.errors()) from a ValidationError. -/
inductive FetchOutcome where
  | success (d : Option Json)
  | httpFailure (reason : String)
  | validationFailure (errs : List FieldError)

/-- Method `get_data_of_indicators` (esios_ree.py 82-104): validate the
three parameters through the `Indicators` model (declaration order); on
ValidationError return (False, e.errors()); otherwise build the url,
fetch, and on fetch failure return it as is; on success set the summary
string and return (True, self.data). -/
def get_data_of_indicators (http : HttpStub) (st : FetcherState)
    (id : Int) (start_date end_date : Date) :
    FetcherState × FetchOutcome × List Event :=
  match pydanticValidate declaredOrder ⟨id, start_date, end_date⟩ with
  | Except.error errs => (st, FetchOutcome.validationFailure errs, [])
  | Except.ok indicators =>
    let url := indicatorsUrl st.main_url indicators.id
      indicators.start_date indicators.end_date
    match fetch_data http st url with
    | (st1, some message, evs) => (st1, FetchOutcome.httpFailure message, evs)
    | (st1, none, evs) =>
      let st2 := { st1 with
        str := summaryString indicators.id indicators.start_date indicators.end_date }
      (st2, FetchOutcome.success st2.data, evs)

/-- Method `fft_out` of `EsiosReeVisualizer` (esios_ree.py 125-135):
`scipy.fft.fft` of the numeric value sequence, modelled as the exact
discrete Fourier transform with the scipy sign convention. -/
noncomputable def fft_out (vals : List Real) : List Complex :=
  (List.range vals.length).map fun (k : Nat) =>
    ∑ n ∈ Finset.range vals.length,
      ((vals.getD n 0 : Real) : Complex) *
        Complex.exp (-2 * (Real.pi : Complex) * Complex.I * (k : Complex) *
          (n : Complex) / (vals.length : Complex))

/-- The detail payload of an HTTPException raised by the route. -/
inductive Detail where
  | str (s : String)
  | fieldErrors (es : List FieldError)
deriving DecidableEq, Repr

/-- Response of the `/indicators` route as the framework delivers it:
a 200 `image/png` response, an HTTPException (status, detail), or an
exception escaping the handler, which the framework turns into a 500
Internal Server Error (named by the Python exception type). -/
inductive ServiceResponse where
  | png
  | httpError (status : Nat) (detail : Detail)
  | unhandled (excType : String)
deriving DecidableEq, Repr

/-- Route handler `get_indicators` (main.py 38-51).

Modelled from the spec: the `Indicators` name used on line 40 is
imported from `esios_ree.input_validators`, a module of this repository
that is not under src/; per spec section 4.1 it is the parameter
validator that fails with a structured ValidationError when start_date
is not strictly before end_date, so it is modelled identically to the
`Indicators` model of esios_ree.py.  The `API_KEY` imported from the
missing `credentials` module is taken as a parameter.

Two lines deserve comment:
* line 40 constructs `Indicators(...)` outside the try block, so a
  ValidationError raised there escapes the handler (FastAPI does not
  catch pydantic ValidationError raised inside a route): 500, not 422;
* line 44 evaluates `e.message`, but Python 3 exceptions (here the
  TypeError from `__check_api_key`) have no `message` attribute, so the
  except block itself raises AttributeError, which escapes: 500, not 401. -/
def get_indicators_route (http : HttpStub) (apiKey : Option String)
    (id : Int) (start_date end_date : Date) :
    ServiceResponse × List Event :=
  match pydanticValidate declaredOrder ⟨id, start_date, end_date⟩ with
  | Except.error _ => (ServiceResponse.unhandled "ValidationError", [])
  | Except.ok indicators =>
    match esiosInit apiKey with
    | Except.error _ => (ServiceResponse.unhandled "AttributeError", [])
    | Except.ok st =>
      let r := get_data_of_indicators http st indicators.id
        indicators.start_date indicators.end_date
      match r.2.1 with
      | FetchOutcome.success _ => (ServiceResponse.png, r.2.2 ++ [Event.vizCall])
      | FetchOutcome.httpFailure reason =>
        (ServiceResponse.httpError 422 (Detail.str reason), r.2.2)
      | FetchOutcome.validationFailure es =>
        (ServiceResponse.httpError 422 (Detail.fieldErrors es), r.2.2)

/-- A stub upstream that always answers with a success status. -/
def okStub : HttpStub :=
  fun _ _ => { ok := true, reason := "OK", body := Json.obj [] }

/-- A stub upstream that always answers 404 Not Found. -/
def failStub : HttpStub :=
  fun _ _ => { ok := false, reason := "Not Found", body := Json.null }

lemma esiosInit_ok_elim {k : String} {st : FetcherState}
    (h : esiosInit (some k) = Except.ok st) :
    st = { api_key := some k, data := none, main_url := mainUrl, str := "" } := by
  simp only [esiosInit, check_api_key, Except.ok.injEq] at h
  exact h.symm

lemma get_data_char_err (http : HttpStub) (st : FetcherState)
    (id : Int) (s e : Date) (hord : Date.le e s = true) :
    get_data_of_indicators http st id s e =
      (st, FetchOutcome.validationFailure
        [⟨FieldName.end_date, "end_date must be after start_date"⟩], []) := by
  unfold get_data_of_indicators
  rw [validate_decl]
  simp [hord]

lemma get_data_char_ok (http : HttpStub) (st : FetcherState)
    (id : Int) (s e : Date) (hord : Date.le e s = false) :
    get_data_of_indicators http st id s e =
      if (http (indicatorsUrl st.main_url id s e) (fetchHeaders st.api_key)).ok then
        ({ st with
            data := some (http (indicatorsUrl st.main_url id s e)
              (fetchHeaders st.api_key)).body,
            str := summaryString id s e },
         FetchOutcome.success (some (http (indicatorsUrl st.main_url id s e)
           (fetchHeaders st.api_key)).body),
         [Event.netCall (indicatorsUrl st.main_url id s e) (fetchHeaders st.api_key)])
      else
        (st,
         FetchOutcome.httpFailure (http (indicatorsUrl st.main_url id s e)
           (fetchHeaders st.api_key)).reason,
         [Event.netCall (indicatorsUrl st.main_url id s e) (fetchHeaders st.api_key)]) := by
  unfold get_data_of_indicators
  rw [validate_decl]
  simp only [hord, Bool.false_eq_true, if_false]
  unfold fetch_data
  by_cases hok : (http (indicatorsUrl st.main_url id s e) (fetchHeaders st.api_key)).ok
  · simp [hok]
  · simp only [Bool.not_eq_true] at hok
    simp [hok]

lemma route_char_fetchfail (http : HttpStub) (k : String) (id : Int) (s e : Date)
    (hord : Date.le e s = false)
    (hfail : (http (indicatorsUrl mainUrl id s e) (fetchHeaders (some k))).ok = false) :
    get_indicators_route http (some k) id s e =
      (ServiceResponse.httpError 422 (Detail.str
         (http (indicatorsUrl mainUrl id s e) (fetchHeaders (some k))).reason),
       [Event.netCall (indicatorsUrl mainUrl id s e) (fetchHeaders (some k))]) := by
  unfold get_indicators_route
  rw [validate_decl]
  simp only [hord, Bool.false_eq_true, if_false]
  have hdata := get_data_char_ok http
    { api_key := some k, data := none, main_url := mainUrl, str := "" } id s e hord
  simp [esiosInit, check_api_key, hdata, hfail]

/-- C1: for every integer id and every pair of valid calendar dates with
start_date strictly before end_date, constructing the Indicators model
succeeds and the object carries exactly those three values unchanged. -/
theorem indicators_accepts_ordered_input (id : Int) (s e : Date)
    (hs : isValidDate s = true) (he : isValidDate e = true)
    (hlt : Date.lt s e = true) :
    pydanticValidate declaredOrder ⟨id, s, e⟩ = Except.ok ⟨id, s, e⟩ := by
  rw [validate_decl]
  simp [date_le_false_of_lt hlt]

theorem indicators_accepts_ordered_input_witness :
    isValidDate ⟨2020, 1, 1⟩ = true ∧ isValidDate ⟨2020, 1, 10⟩ = true ∧
      Date.lt ⟨2020, 1, 1⟩ ⟨2020, 1, 10⟩ = true ∧
      pydanticValidate declaredOrder ⟨1923, ⟨2020, 1, 1⟩, ⟨2020, 1, 10⟩⟩ =
        Except.ok ⟨1923, ⟨2020, 1, 1⟩, ⟨2020, 1, 10⟩⟩ :=
  ⟨by decide, by decide, by decide,
    indicators_accepts_ordered_input 1923 ⟨2020, 1, 1⟩ ⟨2020, 1, 10⟩
      (by decide) (by decide) (by decide)⟩

/-- C2: for every integer id and valid calendar dates with start_date at
or after end_date, constructing the Indicators model fails with a
ValidationError whose structured error list identifies at least one of
the two date fields, whichever of the two date fields is evaluated
first. -/
theorem indicators_rejects_reversed_input (id : Int) (s e : Date)
    (hs : isValidDate s = true) (he : isValidDate e = true)
    (hge : Date.le e s = true) (order : List FieldName)
    (horder : order = declaredOrder ∨ order = swappedOrder) :
    (pydanticValidate order ⟨id, s, e⟩).isOk = false ∧
      (validationErrors (pydanticValidate order ⟨id, s, e⟩)).any
        (fun err => err.loc == FieldName.start_date ||
          err.loc == FieldName.end_date) = true := by
  rcases horder with h | h <;> subst h
  · rw [validate_decl]
    simp only [hge, if_true]
    decide
  · rw [validate_swap]
    simp only [hge, if_true]
    decide

theorem indicators_rejects_reversed_input_witness :
    isValidDate ⟨2020, 1, 10⟩ = true ∧ isValidDate ⟨2020, 1, 1⟩ = true ∧
      Date.le ⟨2020, 1, 1⟩ ⟨2020, 1, 10⟩ = true ∧
      ((pydanticValidate declaredOrder
          ⟨1923, ⟨2020, 1, 10⟩, ⟨2020, 1, 1⟩⟩).isOk = false ∧
        (validationErrors (pydanticValidate declaredOrder
            ⟨1923, ⟨2020, 1, 10⟩, ⟨2020, 1, 1⟩⟩)).any
          (fun err => err.loc == FieldName.start_date ||
            err.loc == FieldName.end_date) = true) :=
  ⟨by decide, by decide, by decide,
    indicators_rejects_reversed_input 1923 ⟨2020, 1, 10⟩ ⟨2020, 1, 1⟩
      (by decide) (by decide) (by decide) declaredOrder (Or.inl rfl)⟩

/-- C3 counterexample: constructing the fetcher with the empty-string
credential succeeds (the check raises only on None), refuting the claim
that every empty credential string fails construction. -/
theorem fetcher_init_empty_key_succeeds :
    esiosInit (some "") =
      Except.ok { api_key := some "", data := none, main_url := mainUrl, str := "" } :=
  rfl

/-- C3 amended: construction fails, deterministically and with no
network interaction (the constructor consumes no HTTP stub), exactly
when the credential is missing (None), raising the fixed TypeError
message; construction with any supplied string credential, the empty
string included, succeeds. -/
theorem fetcher_init_spec (k : Option String) :
    esiosInit k =
      match k with
      | none => Except.error apiKeyErrorMsg
      | some s =>
        Except.ok { api_key := some s, data := none, main_url := mainUrl, str := "" } := by
  cases k <;> rfl

/-- C4: at the failing input (credential missing, request parameters
valid) the route does not answer 401 with the construction failure
detail: the except block evaluates e.message, an attribute that Python 3
exceptions do not have, so an AttributeError escapes the handler and the
framework answers 500 with no network call made. -/
theorem route_missing_key_raises_attribute_error :
    get_indicators_route okStub none 1923 ⟨2020, 1, 1⟩ ⟨2020, 1, 10⟩ =
      (ServiceResponse.unhandled "AttributeError", []) := by
  rfl

/-- C5: at the failing input (reversed date range) the route does not
answer 422: the Indicators construction on main.py line 40 sits outside
the try block, so the ValidationError escapes the handler and the
framework answers 500; no network call is made (the event trace is
empty). -/
theorem route_reversed_dates_unhandled_validation_error :
    get_indicators_route okStub (some "token") 1923 ⟨2020, 1, 10⟩ ⟨2020, 1, 1⟩ =
      (ServiceResponse.unhandled "ValidationError", []) := by
  rfl

/-- C6: when the request validates and the upstream answers a
non-success status, get_data_of_indicators returns Failure carrying
exactly the upstream reason phrase after exactly one network call (no
retry), and the service layer answers 422 with that reason without ever
invoking the Visualizer. -/
theorem upstream_failure_gives_reason_and_no_viz
    (http : HttpStub) (k : String) (st : FetcherState) (id : Int) (s e : Date)
    (h0 : esiosInit (some k) = Except.ok st)
    (hord : Date.le e s = false)
    (hfail : (http (indicatorsUrl st.main_url id s e)
      (fetchHeaders st.api_key)).ok = false) :
    (get_data_of_indicators http st id s e).2.1 =
      FetchOutcome.httpFailure
        (http (indicatorsUrl st.main_url id s e) (fetchHeaders st.api_key)).reason ∧
    (get_data_of_indicators http st id s e).2.2 =
      [Event.netCall (indicatorsUrl st.main_url id s e) (fetchHeaders st.api_key)] ∧
    (get_indicators_route http (some k) id s e).1 =
      ServiceResponse.httpError 422 (Detail.str
        (http (indicatorsUrl st.main_url id s e) (fetchHeaders st.api_key)).reason) ∧
    ((get_indicators_route http (some k) id s e).2.any Event.isViz) = false := by
  have hst := esiosInit_ok_elim h0
  subst hst
  have hroute := route_char_fetchfail http k id s e hord hfail
  have hdata := get_data_char_ok http
    { api_key := some k, data := none, main_url := mainUrl, str := "" } id s e hord
  refine ⟨?_, ?_, ?_, ?_⟩
  · rw [hdata]
    simp [hfail]
  · rw [hdata]
    simp [hfail]
  · rw [hroute]
  · rw [hroute]
    simp [Event.isViz]

theorem upstream_failure_gives_reason_and_no_viz_witness :
    (get_data_of_indicators failStub
        { api_key := some "token", data := none, main_url := mainUrl, str := "" }
        1923 ⟨2020, 1, 1⟩ ⟨2020, 1, 10⟩).2.1 =
      FetchOutcome.httpFailure "Not Found" ∧
    ((get_indicators_route failStub (some "token")
        1923 ⟨2020, 1, 1⟩ ⟨2020, 1, 10⟩).2.any Event.isViz) = false := by
  have h := upstream_failure_gives_reason_and_no_viz failStub "token"
    { api_key := some "token", data := none, main_url := mainUrl, str := "" }
    1923 ⟨2020, 1, 1⟩ ⟨2020, 1, 10⟩ rfl (by decide) rfl
  exact ⟨h.1, h.2.2.2⟩

/-- C7: after a call to get_data_of_indicators the summary string
returned by meta_info equals the Demanda Real description of the request
exactly when the call validated and the upstream answered success; on
any failing call (validation failure or upstream non-success) the
summary is left unchanged. -/
theorem summary_set_only_on_success (http : HttpStub) (st : FetcherState)
    (id : Int) (s e : Date) :
    meta_info (get_data_of_indicators http st id s e).1 =
      if Date.le e s = false ∧
          (http (indicatorsUrl st.main_url id s e)
            (fetchHeaders st.api_key)).ok = true
      then summaryString id s e
      else meta_info st := by
  by_cases hord : Date.le e s = true
  · rw [get_data_char_err http st id s e hord]
    simp [hord]
  · simp only [Bool.not_eq_true] at hord
    rw [get_data_char_ok http st id s e hord]
    by_cases hok : (http (indicatorsUrl st.main_url id s e)
      (fetchHeaders st.api_key)).ok = true
    · simp [hord, hok, meta_info]
    · simp only [Bool.not_eq_true] at hok
      simp [hord, hok, meta_info]

/-- C8: for every validated request the fetch issues exactly one GET to
the url built from the fixed base url, the indicator id and the two
ISO-formatted dates, with exactly the x-api-key, Accept and Content-type
headers of the source. -/
theorem fetch_url_and_headers (http : HttpStub) (k : String) (st : FetcherState)
    (id : Int) (s e : Date)
    (h0 : esiosInit (some k) = Except.ok st)
    (hord : Date.le e s = false) :
    (get_data_of_indicators http st id s e).2.2 =
      [Event.netCall
        ("https://api.esios.ree.es/" ++ "indicators/" ++ toString id ++
          "?start_date=" ++ Date.toIso s ++ "&end_date=" ++ Date.toIso e)
        [("x-api-key", some k),
         ("Accept", some "application/json; application/vnd.esios-api-v1+json"),
         ("Content-type", some "application/json")]] := by
  have hst := esiosInit_ok_elim h0
  subst hst
  rw [get_data_char_ok http _ id s e hord]
  split <;> simp [indicatorsUrl, mainUrl, fetchHeaders]

theorem fetch_url_and_headers_witness :
    (get_data_of_indicators okStub
        { api_key := some "secret", data := none, main_url := mainUrl, str := "" }
        1923 ⟨2020, 1, 1⟩ ⟨2020, 1, 10⟩).2.2 =
      [Event.netCall
        "https://api.esios.ree.es/indicators/1923?start_date=2020-01-01&end_date=2020-01-10"
        [("x-api-key", some "secret"),
         ("Accept", some "application/json; application/vnd.esios-api-v1+json"),
         ("Content-type", some "application/json")]] := by
  have h := fetch_url_and_headers okStub "secret"
    { api_key := some "secret", data := none, main_url := mainUrl, str := "" }
    1923 ⟨2020, 1, 1⟩ ⟨2020, 1, 10⟩ rfl (by decide)
  rw [h]
  rfl

/-- C9: the Fourier transform of the Visualizer maps every numeric value
sequence to a complex-valued sequence of the same length. -/
theorem fft_out_length (vals : List Real) :
    (fft_out vals).length = vals.length := by
  unfold fft_out
  rw [List.length_map, List.length_range]

/-- C10: a freshly constructed fetcher (any credential that lets the
constructor succeed, before any fetch) has an empty meta_info summary
and an absent data property. -/
theorem fresh_fetcher_empty_meta (k : Option String) (st : FetcherState)
    (h : esiosInit k = Except.ok st) :
    meta_info st = "" ∧ st.dataProp = none := by
  cases k with
  | none => simp [esiosInit, check_api_key] at h
  | some s =>
    have hst : st = { api_key := some s, data := none, main_url := mainUrl, str := "" } :=
      esiosInit_ok_elim h
    subst hst
    exact ⟨rfl, rfl⟩

theorem fresh_fetcher_empty_meta_witness :
    meta_info
      { api_key := some "token123", data := none,
        main_url := mainUrl, str := "" } = "" ∧
    FetcherState.dataProp
      { api_key := some "token123", data := none,
        main_url := mainUrl, str := "" } = none :=
  fresh_fetcher_empty_meta (some "token123") _ rfl
